import Mathlib

/-!
Verification of the presentation-assembly engine
(`src/tools/createPresentationFromContent.ts`).

The data model and the operations below are a shallow embedding of the
TypeScript source: JS strings with `?? ` / truthiness become `Option String`
together with the `truthy` helper, the remote Google Slides responses become
explicit environment records, and the two remote mutation batches become
explicit `List Request` values carried in the result.
-/

namespace GSlides

/-- Mirror of `SlideContent` from `schemas.ts`: all content fields are optional. -/
structure SlideContent where
  slideNumber : Option Nat := none
  title : Option String := none
  subtitle : Option String := none
  body : Option String := none
  bullets : Option (List String) := none
  notes : Option String := none
deriving DecidableEq

instance : Inhabited SlideContent := ⟨{}⟩

/-- Mirror of the `CreatePresentationFromContent` args from `schemas.ts`. -/
structure DeckArgs where
  title : String
  slides : List SlideContent
  templatePresentationId : Option String := none
deriving DecidableEq

/-- The `shape.placeholder` field of a page element (only `type` is read). -/
structure PlaceholderField where
  type : Option String := none
deriving DecidableEq

/-- The `shape` field of a page element (only `placeholder` is read). -/
structure ShapeField where
  placeholder : Option PlaceholderField := none
deriving DecidableEq

/-- Mirror of `Schema$PageElement`, restricted to the fields the engine requests
(`pageElements(objectId,shape(placeholder(type)))`). -/
structure PageElement where
  objectId : Option String := none
  shape : Option ShapeField := none
deriving DecidableEq

/-- One slide (page) of a remote presentation, restricted to the requested
fields `slides(objectId,pageElements(...))`. -/
structure Page where
  objectId : Option String := none
  pageElements : Option (List PageElement) := none
deriving DecidableEq

/-- The optional chain `(el.shape as ...)?.placeholder?.type`. -/
def placeholderTypeOf (el : PageElement) : Option String :=
  (el.shape.bind ShapeField.placeholder).bind PlaceholderField.type

/-- JS truthiness on an optional string: `undefined`, `null` and `""` are
falsy; `truthy o = some s` exactly when the string is present and non-empty. -/
def truthy : Option String → Option String
  | some s => if s = "" then none else some s
  | none => none

/-- JS `String.prototype.trim`: strip leading and trailing whitespace.
Modelled over the character list so that it computes by kernel reduction. -/
def jsTrim (s : String) : String :=
  ⟨((s.data.dropWhile Char.isWhitespace).reverse.dropWhile Char.isWhitespace).reverse⟩

/-- Mirror of `buildSlideBodyText` (lines 18-24). Note: the bullet glyph in the source
file is the three-character sequence U+00E2 U+20AC U+00A2 (a double-encoded U+2022). -/
def buildSlideBodyText (slide : SlideContent) : String :=
  let parts : List String := []
  let parts := match slide.subtitle with
    | some s => if jsTrim s = "" then parts else parts ++ [jsTrim s]
    | none => parts
  let parts := match slide.body with
    | some s => if jsTrim s = "" then parts else parts ++ [jsTrim s]
    | none => parts
  let parts := match slide.bullets with
    | some bs => if bs.length = 0 then parts
        else parts ++ [String.intercalate "\n" (bs.map (fun b => "â€¢ " ++ jsTrim b))]
    | none => parts
  String.intercalate "\n\n" parts

/-- Mirror of `PlaceholderInfo` (line 26): `{ objectId: string; type: string }`. -/
structure PlaceholderInfo where
  objectId : String
  type : String
deriving DecidableEq

/-- The `{ title, body }` pair returned by `getTitleAndBodyPlaceholders`. -/
structure TB where
  title : Option PlaceholderInfo := none
  body : Option PlaceholderInfo := none
deriving DecidableEq

/-- One iteration of the `for (const el of pageElements)` loop in
`getTitleAndBodyPlaceholders` (lines 31-37): elements with a falsy
`objectId` are skipped; a `TITLE` hint overwrites `title`; a `BODY` or
`SUBTITLE` hint sets `body` only if it is still unset (`body ?? ...`). -/
def scanStep (acc : TB) (el : PageElement) : TB :=
  match truthy el.objectId with
  | none => acc
  | some objectId =>
    let type := placeholderTypeOf el
    let title := if type = some "TITLE" then some ⟨objectId, "TITLE"⟩ else acc.title
    let body := if type = some "BODY" ∨ type = some "SUBTITLE" then
        (match acc.body with
         | some b => some b
         | none => some ⟨objectId, type.getD "BODY"⟩)
      else acc.body
    ⟨title, body⟩

/-- Mirror of `getTitleAndBodyPlaceholders` (lines 27-41), including the positional
fallback: if no body was found by hint, the list has at least two elements
and element 1 has a truthy `objectId`, element 1 becomes the body. -/
def getTitleAndBodyPlaceholders (pageElements : Option (List PageElement)) : TB :=
  match pageElements with
  | none => ⟨none, none⟩
  | some els =>
    let scanned := els.foldl scanStep ⟨none, none⟩
    match scanned.body with
    | some _ => scanned
    | none =>
      match els with
      | _ :: e1 :: _ =>
        match truthy e1.objectId with
        | some objectId => ⟨scanned.title, some ⟨objectId, "BODY"⟩⟩
        | none => scanned
      | _ => scanned

/-- Geometry constants (lines 11-16), in PT. -/
def PAGE_WIDTH_PT : Nat := 720

def PAGE_HEIGHT_PT : Nat := 540

def MARGIN_PT : Nat := 40

def TITLE_HEIGHT_PT : Nat := 60

def BODY_TOP_PT : Nat := 120

def CONTENT_WIDTH_PT : Nat := PAGE_WIDTH_PT - 2 * MARGIN_PT

/-- Size of a created shape (`width`/`height` magnitudes in PT). -/
structure ShapeSize where
  width : Nat
  height : Nat
deriving DecidableEq

/-- Transform of a created shape (`scaleX`, `scaleY`, `translateX`,
`translateY`, unit PT). -/
structure ShapeTransform where
  scaleX : Nat
  scaleY : Nat
  translateX : Nat
  translateY : Nat
deriving DecidableEq

/-- The `Schema$Request` variants the engine emits. `deleteText` always uses
`textRange: ALL` in the source, so the range is not represented. -/
inductive Request where
  | duplicateObject (objectId : String)
  | deleteObject (objectId : String)
  | deleteText (objectId : String)
  | insertText (objectId : String) (text : String) (insertionIndex : Nat)
  | createSlide (objectId : String) (insertionIndex : Nat) (predefinedLayout : String)
  | createShape (objectId : String) (shapeType : String) (pageObjectId : String)
      (size : ShapeSize) (transform : ShapeTransform)
deriving DecidableEq

/-- The deletion half of the structural batch (lines 80-84): one
`deleteObject` for each page at indices `2 .. length-2` whose `objectId` is
truthy, in ascending index order. `(drop 2).dropLast` is exactly the slice
of pages at indices `2 .. length-2`. -/
def structuralDeletes (templateSlides : List Page) : List Request :=
  ((templateSlides.drop 2).dropLast).filterMap (fun p =>
    match p.objectId with
    | some oid => if oid = "" then none else some (Request.deleteObject oid)
    | none => none)

/-- The structural batch (lines 72-84): `N - 1` duplicates of the content
layout page followed by the deletions. -/
def structuralBatch (n : Nat) (contentLayoutSlideId : String) (templateSlides : List Page) :
    List Request :=
  List.replicate (n - 1) (Request.duplicateObject contentLayoutSlideId)
    ++ structuralDeletes templateSlides

/-- The expression `slideContent?.title?.trim() ?? ''` (line 108). -/
def contentTitleText (slide : SlideContent) : String :=
  match slide.title with
  | some s => jsTrim s
  | none => ""

/-- Title half of the per-content-slide fill (lines 112-115): when a title
target was resolved, delete all its text and insert the (possibly empty)
trimmed slide title. -/
def titleFillPart (slide : SlideContent) (pageElements : Option (List PageElement)) :
    List Request :=
  match (getTitleAndBodyPlaceholders pageElements).title with
  | some t => [Request.deleteText t.objectId,
      Request.insertText t.objectId (contentTitleText slide) 0]
  | none => []

/-- Body half of the per-content-slide fill (lines 116-119): emitted only
when a body target was resolved and the composed body text is non-empty. -/
def bodyFillPart (slide : SlideContent) (pageElements : Option (List PageElement)) :
    List Request :=
  match (getTitleAndBodyPlaceholders pageElements).body with
  | some b =>
    if buildSlideBodyText slide = "" then []
    else [Request.deleteText b.objectId,
      Request.insertText b.objectId (buildSlideBodyText slide) 0]
  | none => []

/-- Fill requests for one content slide (lines 104-120). -/
def fillForContentSlide (slide : SlideContent) (pageElements : Option (List PageElement)) :
    List Request :=
  titleFillPart slide pageElements ++ bodyFillPart slide pageElements

/-- The fill batch (lines 95-121): page 0 receives only the presentation
title (when a title target resolves), then each content page `1 + i` is
filled from `slides[i]`; the last page is never touched. -/
def fillBatch (args : DeckArgs) (finalSlides : List Page) : List Request :=
  (match (getTitleAndBodyPlaceholders ((finalSlides[0]?).bind Page.pageElements)).title with
   | some t => [Request.deleteText t.objectId, Request.insertText t.objectId args.title 0]
   | none => [])
  ++ (List.range args.slides.length).flatMap (fun i =>
      fillForContentSlide ((args.slides[i]?).getD {})
        ((finalSlides[1 + i]?).bind Page.pageElements))

/-- Remote responses observed by one template-mode run: the copy result id
(`copyRes.data.id`), the first page-list read (`getRes.data.slides`) and the
re-read after the structural batch (`getRes2.data.slides`). -/
structure TemplateEnv where
  copyId : Option String := none
  templateSlides : Option (List Page) := none
  finalSlides : Option (List Page) := none

/-- Result of a template-mode run. `err` keeps the thrown message and the
batches that had already been issued; `ok` carries the structural and fill
batches (each issued only when non-empty) and the returned payload. -/
inductive TemplateResult where
  | err (message : String) (issuedBatches : List (List Request))
  | ok (structural fill : List Request) (presentationId editUrl title : String)
deriving DecidableEq

/-- Mirror of `createFromTemplate` (lines 49-129) as a function of the remote
responses it observes. -/
def createFromTemplate (args : DeckArgs) (env : TemplateEnv) : TemplateResult :=
  match truthy env.copyId with
  | none => .err "Drive copy did not return file id" []
  | some presentationId =>
    let templateSlides := env.templateSlides.getD []
    if templateSlides.length < 3 then
      .err "Default template must have at least 3 slides: title, content layout, thank you" []
    else
      match truthy ((templateSlides[1]?).bind Page.objectId) with
      | none => .err "Template content layout slide missing objectId" []
      | some contentLayoutSlideId =>
        let requests := structuralBatch args.slides.length contentLayoutSlideId templateSlides
        let issued := if requests = [] then [] else [requests]
        let finalSlides := env.finalSlides.getD []
        if finalSlides.length < 1 + args.slides.length + 1 then
          .err "Template restructuring did not produce enough slides" issued
        else
          .ok requests (fillBatch args finalSlides) presentationId
            ("https://docs.google.com/presentation/d/" ++ presentationId ++ "/edit")
            args.title

/-- Batches issued by a template-mode run (a batch is only sent when its
request list is non-empty, lines 86-88 and 123-125). -/
def TemplateResult.issued : TemplateResult → List (List Request)
  | .err _ b => b
  | .ok s f _ _ _ =>
    (if s = [] then [] else [s]) ++ (if f = [] then [] else [f])

/-- One iteration of the inline placeholder scan of the blank path
(lines 170-174). Unlike `scanStep` it does not skip id-less elements: a
`TITLE` hint overwrites `titleObjectId` with `el.objectId ?? null`, and a
`BODY`/`SUBTITLE` hint overwrites `bodyObjectId` only when `el.objectId` is
present (`el.objectId ?? bodyObjectId ?? null`). -/
def blankScanStep (acc : Option String × Option String) (el : PageElement) :
    Option String × Option String :=
  let type := placeholderTypeOf el
  let titleObjectId := if type = some "TITLE" then el.objectId else acc.1
  let bodyObjectId := if type = some "BODY" ∨ type = some "SUBTITLE" then
      (match el.objectId with
       | some oid => some oid
       | none => acc.2)
    else acc.2
  (titleObjectId, bodyObjectId)

/-- The blank-path placeholder resolution on the first slide
(lines 168-177), including its positional fallback: when the scanned body id
is falsy and there are at least two elements, `pageElements[1].objectId ?? null`
is taken. -/
def blankResolve (pageElements : List PageElement) : Option String × Option String :=
  let scanned := pageElements.foldl blankScanStep (none, none)
  match truthy scanned.2 with
  | some _ => scanned
  | none =>
    match pageElements with
    | _ :: e1 :: _ => (scanned.1, e1.objectId)
    | _ => scanned

/-- Requests created for blank-path slide `i` (`1 <= i < slides.length`,
lines 204-277): a blank slide, a title box, a body box, then `insertText`
into each box only when the corresponding text is non-empty. -/
def blankSlideRequests (slide : SlideContent) (i : Nat) : List Request :=
  let slideId := "slide_" ++ toString (i + 1)
  let titleBoxId := "title_" ++ toString (i + 1)
  let bodyBoxId := "body_" ++ toString (i + 1)
  let slideTitle := contentTitleText slide
  let slideBody := buildSlideBodyText slide
  [Request.createSlide slideId i "BLANK",
   Request.createShape titleBoxId "TEXT_BOX" slideId
     ⟨CONTENT_WIDTH_PT, TITLE_HEIGHT_PT⟩ ⟨1, 1, MARGIN_PT, MARGIN_PT⟩,
   Request.createShape bodyBoxId "TEXT_BOX" slideId
     ⟨CONTENT_WIDTH_PT, PAGE_HEIGHT_PT - BODY_TOP_PT - MARGIN_PT⟩ ⟨1, 1, MARGIN_PT, BODY_TOP_PT⟩]
  ++ (if slideTitle = "" then [] else [Request.insertText titleBoxId slideTitle 0])
  ++ (if slideBody = "" then [] else [Request.insertText bodyBoxId slideBody 0])

/-- Remote responses observed by one blank-path run: the created
presentation id (`createRes.data.presentationId`) and the page-list read
(`getRes.data.slides`). -/
structure BlankEnv where
  presentationId : Option String := none
  slidesRead : Option (List Page) := none

/-- Result of a blank-path run. The single batch is issued only when
non-empty (lines 279-284). -/
inductive BlankResult where
  | err (message : String)
  | ok (requests : List Request) (presentationId editUrl title : String)
deriving DecidableEq

/-- The request list of a blank-path run (empty on error). -/
def BlankResult.requests : BlankResult → List Request
  | .err _ => []
  | .ok rs _ _ _ => rs

/-- The blank (no-Drive) path of `createPresentationFromContent`
(lines 151-287) as a function of the remote responses it observes. -/
def createBlank (args : DeckArgs) (env : BlankEnv) : BlankResult :=
  match truthy env.presentationId with
  | none => .err "Google API did not return presentationId"
  | some presentationId =>
    let pageElements := ((env.slidesRead.bind (fun ss => ss[0]?)).bind Page.pageElements).getD []
    let resolved := blankResolve pageElements
    let first := args.slides[0]?
    let firstTitle := match first.bind SlideContent.title with
      | some s => jsTrim s
      | none => args.title
    let firstBody := buildSlideBodyText (first.getD {})
    let firstReqs :=
      (match truthy resolved.1 with
       | some titleObjectId => [Request.insertText titleObjectId firstTitle 0]
       | none => [])
      ++ (match truthy resolved.2 with
       | some bodyObjectId =>
          if firstBody = "" then [] else [Request.insertText bodyObjectId firstBody 0]
       | none => [])
    let restReqs := (List.range' 1 (args.slides.length - 1)).flatMap (fun i =>
      blankSlideRequests ((args.slides[i]?).getD {}) i)
    .ok (firstReqs ++ restReqs) presentationId
      ("https://docs.google.com/presentation/d/" ++ presentationId ++ "/edit")
      args.title

/-- Dispatch of `createPresentationFromContent` (lines 145-149): when a
Drive client is available the template path runs, otherwise the blank path. -/
def createPresentationFromContent (args : DeckArgs) :
    Option TemplateEnv → BlankEnv → TemplateResult ⊕ BlankResult
  | some tenv, _ => .inl (createFromTemplate args tenv)
  | none, benv => .inr (createBlank args benv)

/-- Modelled from the spec: the remote store's `applyBatch` page-list
semantics (section 6 collaborator contract), which is not code of this
repository. `duplicateObject` inserts a copy right after the first page
bearing the target id; the copy's id is assigned by the store and unknown to
the engine, modelled as `none`. -/
def dupFirst (oid : String) : List Page → List Page
  | [] => []
  | p :: ps =>
    if p.objectId = some oid then p :: { p with objectId := none } :: ps
    else p :: dupFirst oid ps

/-- Modelled from the spec: effect of a single edit operation on the remote
page list; `deleteObject` removes the identified page, text and shape
operations do not change the page list. -/
def applyRequest (pages : List Page) (r : Request) : List Page :=
  match r with
  | .duplicateObject oid => dupFirst oid pages
  | .deleteObject oid => pages.filter (fun p => decide (p.objectId ≠ some oid))
  | _ => pages

/-- Modelled from the spec: effect of an ordered batch on the remote page
list. -/
def applyRequests (reqs : List Request) (pages : List Page) : List Page :=
  reqs.foldl applyRequest pages

/-- An element that the title scan can select: `TITLE` role hint and a
truthy `objectId`. -/
def titleElig (el : PageElement) : Bool :=
  (placeholderTypeOf el == some "TITLE") && (truthy el.objectId).isSome

/-- An element that the body scan can select: `BODY` or `SUBTITLE` role hint
and a truthy `objectId`. -/
def bodyElig (el : PageElement) : Bool :=
  ((placeholderTypeOf el == some "BODY") || (placeholderTypeOf el == some "SUBTITLE"))
    && (truthy el.objectId).isSome

/-- The `PlaceholderInfo` built when the scan selects `el` as title. -/
def mkTitleInfo (el : PageElement) : PlaceholderInfo :=
  ⟨el.objectId.getD "", "TITLE"⟩

/-- The `PlaceholderInfo` built when the scan selects `el` as body. -/
def mkBodyInfo (el : PageElement) : PlaceholderInfo :=
  ⟨el.objectId.getD "", (placeholderTypeOf el).getD "BODY"⟩

/-- Recognizes an insert-text request whose target is the given element id
(used to count how many text insertions a given element receives). -/
def isInsertTargeting (objectId : String) : Request → Bool
  | Request.insertText oid _ _ => oid == objectId
  | _ => false

lemma truthy_eq_some {o : Option String} {s : String} :
    truthy o = some s ↔ o = some s ∧ s ≠ "" := by
  cases o with
  | none => simp [truthy]
  | some t =>
    by_cases h : t = ""
    · subst h
      constructor
      · intro h2; simp [truthy] at h2
      · rintro ⟨h1, h2⟩
        exact absurd (Option.some.inj h1).symm h2
    · simp only [truthy, if_neg h]
      constructor
      · intro h2
        refine ⟨h2, ?_⟩
        obtain rfl := Option.some.inj h2
        exact h
      · exact fun h2 => h2.1

lemma scanStep_of_skip {acc : TB} {e : PageElement} (h : truthy e.objectId = none) :
    scanStep acc e = acc := by
  simp [scanStep, h]

lemma scanStep_title_of_elig {acc : TB} {e : PageElement} (h : titleElig e = true) :
    (scanStep acc e).title = some (mkTitleInfo e) := by
  have h' := h
  simp only [titleElig, Bool.and_eq_true, beq_iff_eq, Option.isSome_iff_exists] at h'
  obtain ⟨h1, s, hs⟩ := h'
  obtain ⟨ho, -⟩ := truthy_eq_some.mp hs
  simp only [scanStep, hs]
  simp [h1, mkTitleInfo, ho]

lemma scanStep_title_of_not_elig {acc : TB} {e : PageElement} (h : titleElig e = false) :
    (scanStep acc e).title = acc.title := by
  cases hs : truthy e.objectId with
  | none => simp [scanStep, hs]
  | some s =>
    have h1 : ¬placeholderTypeOf e = some "TITLE" := by
      simp [titleElig, hs] at h
      exact h
    simp [scanStep, hs, h1]

lemma scanStep_body_of_some {acc : TB} {e : PageElement} {b : PlaceholderInfo}
    (h : acc.body = some b) : (scanStep acc e).body = some b := by
  cases hs : truthy e.objectId with
  | none => simp [scanStep, hs, h]
  | some s =>
    simp only [scanStep, hs]
    split
    · simp [h]
    · exact h

lemma scanStep_body_of_not_elig {acc : TB} {e : PageElement} (h : bodyElig e = false) :
    (scanStep acc e).body = acc.body := by
  cases hs : truthy e.objectId with
  | none => simp [scanStep, hs]
  | some s =>
    have h1 : ¬(placeholderTypeOf e = some "BODY" ∨ placeholderTypeOf e = some "SUBTITLE") := by
      simp [bodyElig, hs] at h
      simpa using h
    simp [scanStep, hs, h1]

lemma scanStep_body_of_elig_none {acc : TB} {e : PageElement} (hb : acc.body = none)
    (h : bodyElig e = true) : (scanStep acc e).body = some (mkBodyInfo e) := by
  have h' := h
  simp only [bodyElig, Bool.and_eq_true, Bool.or_eq_true, beq_iff_eq,
    Option.isSome_iff_exists] at h'
  obtain ⟨h1, s, hs⟩ := h'
  obtain ⟨ho, -⟩ := truthy_eq_some.mp hs
  simp only [scanStep, hs]
  simp [h1, hb, mkBodyInfo, ho]

lemma foldl_scanStep_title (els : List PageElement) (t0 b0 : Option PlaceholderInfo) :
    (els.foldl scanStep ⟨t0, b0⟩).title
      = match (els.filter titleElig).getLast? with
        | some e => some (mkTitleInfo e)
        | none => t0 := by
  induction els generalizing t0 b0 with
  | nil => simp
  | cons e rest ih =>
    rw [List.foldl_cons]
    have heta : scanStep ⟨t0, b0⟩ e
        = (⟨(scanStep ⟨t0, b0⟩ e).title, (scanStep ⟨t0, b0⟩ e).body⟩ : TB) := rfl
    by_cases he : titleElig e
    · rw [heta, scanStep_title_of_elig he, ih, List.filter_cons_of_pos he]
      cases hl : rest.filter titleElig with
      | nil => simp
      | cons h t =>
        rw [List.getLast?_cons_cons]
        cases hgl : (h :: t).getLast? with
        | none => simp at hgl
        | some x => rfl
    · rw [heta, scanStep_title_of_not_elig (Bool.not_eq_true _ ▸ he), ih,
        List.filter_cons_of_neg he]

lemma foldl_scanStep_body_some (els : List PageElement) (t0 : Option PlaceholderInfo)
    {b : PlaceholderInfo} :
    (els.foldl scanStep ⟨t0, some b⟩).body = some b := by
  induction els generalizing t0 with
  | nil => rfl
  | cons e rest ih =>
    rw [List.foldl_cons]
    have heta : scanStep ⟨t0, some b⟩ e
        = (⟨(scanStep ⟨t0, some b⟩ e).title, (scanStep ⟨t0, some b⟩ e).body⟩ : TB) := rfl
    rw [heta, scanStep_body_of_some rfl, ih]

lemma foldl_scanStep_body (els : List PageElement) (t0 : Option PlaceholderInfo) :
    (els.foldl scanStep ⟨t0, none⟩).body = (els.find? bodyElig).map mkBodyInfo := by
  induction els generalizing t0 with
  | nil => rfl
  | cons e rest ih =>
    rw [List.foldl_cons]
    have heta : scanStep ⟨t0, none⟩ e
        = (⟨(scanStep ⟨t0, none⟩ e).title, (scanStep ⟨t0, none⟩ e).body⟩ : TB) := rfl
    by_cases he : bodyElig e
    · rw [List.find?_cons_of_pos _ he, heta, scanStep_body_of_elig_none rfl he,
        foldl_scanStep_body_some]
      rfl
    · rw [List.find?_cons_of_neg _ he, heta,
        scanStep_body_of_not_elig (Bool.not_eq_true _ ▸ he), ih]

lemma resolver_title (els : List PageElement) :
    (getTitleAndBodyPlaceholders (some els)).title = (els.foldl scanStep ⟨none, none⟩).title := by
  simp only [getTitleAndBodyPlaceholders]
  split
  · rfl
  · split
    · split
      · rfl
      · rfl
    · rfl

lemma resolver_body (els : List PageElement) :
    (getTitleAndBodyPlaceholders (some els)).body
      = match (els.foldl scanStep ⟨none, none⟩).body with
        | some b => some b
        | none =>
          match els with
          | _ :: e1 :: _ =>
            (match truthy e1.objectId with
             | some objectId => some ⟨objectId, "BODY"⟩
             | none => none)
          | _ => none := by
  cases hb : (els.foldl scanStep ⟨none, none⟩).body with
  | some b => simp only [getTitleAndBodyPlaceholders, hb]
  | none =>
    simp only [getTitleAndBodyPlaceholders, hb]
    cases els with
    | nil => rfl
    | cons e0 tl =>
      cases tl with
      | nil => simpa using hb
      | cons e1 rest =>
        cases ht : truthy e1.objectId with
        | none => simpa [ht] using hb
        | some oid => simp [ht]

/-- Claim C4 (counterexample): on the element list with two `TITLE`-hinted
elements, ids `"a"` then `"b"`, the resolver assigns the title role to the
later element `"b"` and not to the first match `"a"`, refuting «the element
assigned the title role is the first element in scan order whose role hint
is TITLE; later TITLE hints are ignored». -/
theorem claim_C4_cex :
    (getTitleAndBodyPlaceholders (some
        [{ objectId := some "a", shape := some { placeholder := some { type := some "TITLE" } } },
         { objectId := some "b", shape := some { placeholder := some { type := some "TITLE" } } }])).title
      = some ⟨"b", "TITLE"⟩
    ∧ (getTitleAndBodyPlaceholders (some
        [{ objectId := some "a", shape := some { placeholder := some { type := some "TITLE" } } },
         { objectId := some "b", shape := some { placeholder := some { type := some "TITLE" } } }])).title
      ≠ some ⟨"a", "TITLE"⟩ := by
  decide

/-- Claim C4 (amended): for every ordered element list, the element assigned
the title role is the *last* element in scan order whose role hint is TITLE
and whose identifier is present and non-empty; earlier TITLE hints are
overwritten (and TITLE-hinted elements without an identifier are skipped). -/
theorem claim_C4_amended (els : List PageElement) :
    (getTitleAndBodyPlaceholders (some els)).title
      = match (els.filter titleElig).getLast? with
        | some e => some (mkTitleInfo e)
        | none => none := by
  rw [resolver_title, foldl_scanStep_title]

/-- Claim C5 (counterexample): a two-element page with no role hints whose
element at index 1 has no identifier yields *no* body assignment, refuting
«if no element carries such a hint and the list has at least two elements,
the element at index 1 becomes the body by positional fallback». -/
theorem claim_C5_cex :
    (getTitleAndBodyPlaceholders (some [{ objectId := some "a" }, ({} : PageElement)])).body
      = none
    ∧ 2 ≤ ([{ objectId := some "a" }, ({} : PageElement)] : List PageElement).length
    ∧ ∀ e ∈ ([{ objectId := some "a" }, ({} : PageElement)] : List PageElement),
        placeholderTypeOf e ≠ some "BODY" ∧ placeholderTypeOf e ≠ some "SUBTITLE" := by
  decide

/-- Claim C5 (amended): the body role goes to the first element in scan
order with a `BODY`/`SUBTITLE` hint and a present, non-empty identifier;
failing that, if the list has at least two elements and the element at
index 1 has a present, non-empty identifier, that element becomes the body,
otherwise no body is assigned. A page with no role hints, at least two
elements and a truthy identifier on element 1 yields body = element 1 and
no title. -/
theorem claim_C5_amended :
    (∀ els : List PageElement,
      (getTitleAndBodyPlaceholders (some els)).body
        = match els.find? bodyElig with
          | some e => some (mkBodyInfo e)
          | none =>
            match els with
            | _ :: e1 :: _ =>
              (match truthy e1.objectId with
               | some objectId => some ⟨objectId, "BODY"⟩
               | none => none)
            | _ => none)
    ∧ (∀ (e0 e1 : PageElement) (rest : List PageElement),
        (∀ e ∈ e0 :: e1 :: rest, placeholderTypeOf e = none) →
        ∀ s, truthy e1.objectId = some s →
        (getTitleAndBodyPlaceholders (some (e0 :: e1 :: rest))).body = some ⟨s, "BODY"⟩
        ∧ (getTitleAndBodyPlaceholders (some (e0 :: e1 :: rest))).title = none) := by
  constructor
  · intro els
    rw [resolver_body, foldl_scanStep_body]
    cases h : els.find? bodyElig with
    | none => rfl
    | some e => rfl
  · intro e0 e1 rest hnh s hs
    have hfind : (e0 :: e1 :: rest).find? bodyElig = none := by
      apply List.find?_eq_none.mpr
      intro e he
      simp [bodyElig, hnh e he]
    constructor
    · rw [resolver_body, foldl_scanStep_body, hfind]
      simp [hs]
    · rw [resolver_title, foldl_scanStep_title]
      have hfil : (e0 :: e1 :: rest).filter titleElig = [] := by
        apply List.filter_eq_nil_iff.mpr
        intro e he
        simp [titleElig, hnh e he]
      rw [hfil]
      rfl

/-- Claim C5 (witness): on the concrete hint-less two-element page with
element ids `"a"` (index 0) and `"bb"` (index 1), the resolver assigns
body `"bb"` and no title. -/
theorem claim_C5_witness :
    (getTitleAndBodyPlaceholders (some
        [{ objectId := some "a" }, { objectId := some "bb" }])).body = some ⟨"bb", "BODY"⟩
    ∧ (getTitleAndBodyPlaceholders (some
        [{ objectId := some "a" }, { objectId := some "bb" }])).title = none :=
  claim_C5_amended.2 { objectId := some "a" } { objectId := some "bb" } [] (by decide)
    "bb" (by decide)

/-- Claim C10: (1) the hint-classification scan is unchanged when the
elements with falsy identifiers are removed (they are skipped entirely);
(2) if every TITLE-hinted element lacks a truthy identifier, no title is
assigned; (3) when no hinted body was found, the positional fallback
assigns the element at index 1 as body exactly when that element's
identifier is present and non-empty, and otherwise leaves the body
unassigned (the resolver still returns normally). -/
theorem claim_C10 :
    (∀ (els : List PageElement) (acc : TB),
        els.foldl scanStep acc
          = (els.filter (fun e => (truthy e.objectId).isSome)).foldl scanStep acc)
    ∧ (∀ els : List PageElement,
        (∀ e ∈ els, placeholderTypeOf e = some "TITLE" → truthy e.objectId = none) →
        (getTitleAndBodyPlaceholders (some els)).title = none)
    ∧ (∀ els : List PageElement, els.find? bodyElig = none → 2 ≤ els.length →
        (getTitleAndBodyPlaceholders (some els)).body
          = match els[1]? with
            | some e1 =>
              (match truthy e1.objectId with
               | some objectId => some ⟨objectId, "BODY"⟩
               | none => none)
            | none => none) := by
  refine ⟨?_, ?_, ?_⟩
  · intro els
    induction els with
    | nil => intro acc; rfl
    | cons e rest ih =>
      intro acc
      cases hn : truthy e.objectId with
      | none =>
        rw [List.foldl_cons, scanStep_of_skip hn, List.filter_cons_of_neg (by simp [hn]), ih]
      | some s =>
        rw [List.filter_cons_of_pos (by simp [hn]), List.foldl_cons, List.foldl_cons, ih]
  · intro els h
    rw [resolver_title, foldl_scanStep_title]
    have hfil : els.filter titleElig = [] := by
      apply List.filter_eq_nil_iff.mpr
      intro e he
      by_cases ht : placeholderTypeOf e = some "TITLE"
      · simp [titleElig, ht, h e he ht]
      · simp [titleElig, ht]
    rw [hfil]
    rfl
  · intro els hfind hlen
    rw [resolver_body, foldl_scanStep_body, hfind]
    cases els with
    | nil => simp at hlen
    | cons e0 tl =>
      cases tl with
      | nil => simp at hlen
      | cons e1 rest => simp

/-- Claim C10 (witness): on the concrete page whose element 0 is
TITLE-hinted but id-less and whose element 1 has id `"x"`, no title is
assigned and the fallback assigns body `"x"`. -/
theorem claim_C10_witness :
    (getTitleAndBodyPlaceholders (some
        [{ shape := some { placeholder := some { type := some "TITLE" } } },
         { objectId := some "x" }])).title = none
    ∧ (getTitleAndBodyPlaceholders (some
        [{ shape := some { placeholder := some { type := some "TITLE" } } },
         { objectId := some "x" }])).body = some ⟨"x", "BODY"⟩ := by
  constructor
  · exact claim_C10.2.1 _ (by decide)
  · rw [claim_C10.2.2 _ (by decide) (by decide)]
    decide

/-- Claim C6: at the spec's example slide (`subtitle = "s"`, `body = "x"`,
`bullets = ["a","b"]`) the composed body text uses the glyph actually
present in the source file, the three characters U+00E2 U+20AC U+00A2
(a double-encoded bullet), so the produced text differs from the claimed
`"s\n\nx\n\n• a\n• b"`, whose glyph is the single character
U+2022. -/
theorem claim_C6_eval :
    buildSlideBodyText { subtitle := some "s", body := some "x", bullets := some ["a", "b"] }
      = "s\n\nx\n\nâ€¢ a\nâ€¢ b"
    ∧ buildSlideBodyText { subtitle := some "s", body := some "x", bullets := some ["a", "b"] }
      ≠ "s\n\nx\n\n• a\n• b" := by
  constructor
  · rfl
  · decide

/-- Claim C9: template-mode provisioning fails (with no batch issued) when
the copy result carries no truthy document id — `Drive copy did not return
file id` — and when the copied template has fewer than 3 pages — `Default
template must have at least 3 slides`; in both cases the run ends before
any batch is issued. -/
theorem claim_C9 (args : DeckArgs) (env : TemplateEnv) :
    (truthy env.copyId = none →
      createFromTemplate args env = .err "Drive copy did not return file id" []
      ∧ (createFromTemplate args env).issued = [])
    ∧ (∀ pid, truthy env.copyId = some pid →
      (env.templateSlides.getD []).length < 3 →
      createFromTemplate args env
        = .err "Default template must have at least 3 slides: title, content layout, thank you" []
      ∧ (createFromTemplate args env).issued = []) := by
  constructor
  · intro h
    have hrun : createFromTemplate args env = .err "Drive copy did not return file id" [] := by
      simp only [createFromTemplate, h]
    exact ⟨hrun, by rw [hrun]; rfl⟩
  · intro pid hpid hlen
    have hrun : createFromTemplate args env
        = .err "Default template must have at least 3 slides: title, content layout, thank you"
            [] := by
      simp only [createFromTemplate, hpid]
      rw [if_pos hlen]
    exact ⟨hrun, by rw [hrun]; rfl⟩

/-- Claim C9 (witness): with no copy id the run fails with the copy error
and no batch; with a copy id but a 2-page template it fails with the
template-shape error and no batch. -/
theorem claim_C9_witness :
    createFromTemplate ⟨"Deck", [{}], none⟩ ⟨none, none, none⟩
      = .err "Drive copy did not return file id" []
    ∧ createFromTemplate ⟨"Deck", [{}], none⟩ ⟨some "p", some [{}, {}], none⟩
      = .err "Default template must have at least 3 slides: title, content layout, thank you" []
    ∧ (createFromTemplate ⟨"Deck", [{}], none⟩ ⟨some "p", some [{}, {}], none⟩).issued = [] := by
  refine ⟨((claim_C9 ⟨"Deck", [{}], none⟩ ⟨none, none, none⟩).1 (by decide)).1, ?_, ?_⟩
  · exact ((claim_C9 ⟨"Deck", [{}], none⟩ ⟨some "p", some [{}, {}], none⟩).2 "p"
      (by decide) (by decide)).1
  · exact ((claim_C9 ⟨"Deck", [{}], none⟩ ⟨some "p", some [{}, {}], none⟩).2 "p"
      (by decide) (by decide)).2

lemma structuralDeletes_concat_middle (p0 p1 plast : Page) (mids : List Page)
    (hmid : ∀ p ∈ mids, p.objectId ≠ none ∧ p.objectId ≠ some "") :
    structuralDeletes (p0 :: p1 :: (mids ++ [plast]))
      = mids.map (fun p => Request.deleteObject (p.objectId.getD "")) := by
  unfold structuralDeletes
  show ((mids ++ [plast]).dropLast).filterMap _ = _
  rw [List.dropLast_concat]
  induction mids with
  | nil => rfl
  | cons m ms ih =>
    obtain ⟨hm1, hm2⟩ := hmid m (by simp)
    rw [List.filterMap_cons, List.map_cons]
    cases ho : m.objectId with
    | none => exact absurd ho hm1
    | some s =>
      have hs' : s ≠ "" := by
        intro h
        exact hm2 (ho.trans (by rw [h]))
      simp only [ho, if_neg hs']
      rw [ih (fun p hp => hmid p (by simp [hp]))]
      simp [ho]

/-- Claim C2: with a template of `P >= 3` pages (page 0, content-layout page
1 with id `c`, middle pages, last page) whose middle pages carry truthy
ids, the structural batch is exactly `N - 1` duplicates of the page at
index 1 followed by (hence all duplicates before any deletion) one
deletion per middle page (indices `2 .. P-2`) in ascending index order; in
particular `N = 3` with a 3-page template gives exactly 2 duplicates and
0 deletions. -/
theorem claim_C2 (n : Nat) (c : String) (p0 p1 plast : Page) (mids : List Page)
    (_hc : p1.objectId = some c)
    (hmid : ∀ p ∈ mids, p.objectId ≠ none ∧ p.objectId ≠ some "") :
    structuralBatch n c (p0 :: p1 :: (mids ++ [plast]))
      = List.replicate (n - 1) (Request.duplicateObject c)
        ++ mids.map (fun p => Request.deleteObject (p.objectId.getD ""))
    ∧ (n = 3 → mids = [] →
        structuralBatch n c (p0 :: p1 :: (mids ++ [plast]))
          = [Request.duplicateObject c, Request.duplicateObject c]) := by
  have hdel := structuralDeletes_concat_middle p0 p1 plast mids hmid
  constructor
  · unfold structuralBatch
    rw [hdel]
  · intro hn hm
    subst hn
    subst hm
    unfold structuralBatch
    rw [hdel]
    rfl

/-- Claim C2 (witness): a 4-page template (one middle page `"mid"`) with
`N = 3` yields the batch of two duplicates of `"p1"` followed by the single
deletion of `"mid"`. -/
theorem claim_C2_witness :
    structuralBatch 3 "p1"
        [{ objectId := some "p0" }, { objectId := some "p1" },
         { objectId := some "mid" }, { objectId := some "p3" }]
      = [Request.duplicateObject "p1", Request.duplicateObject "p1",
         Request.deleteObject "mid"] := by
  have h := (claim_C2 3 "p1" { objectId := some "p0" } { objectId := some "p1" }
      { objectId := some "p3" } [{ objectId := some "mid" }] (by decide) (by decide)).1
  exact h.trans rfl

lemma applyRequests_append (a b : List Request) (pages : List Page) :
    applyRequests (a ++ b) pages = applyRequests b (applyRequests a pages) :=
  List.foldl_append _ _ _ _

lemma dup_shape (c : String) (p0 p1 : Page) (h0 : p0.objectId ≠ some c)
    (h1 : p1.objectId = some c) (k : Nat) :
    ∀ rest : List Page,
      applyRequests (List.replicate k (Request.duplicateObject c)) (p0 :: p1 :: rest)
        = p0 :: p1 :: (List.replicate k { p1 with objectId := none } ++ rest) := by
  induction k with
  | zero => intro rest; rfl
  | succ k ih =>
    intro rest
    rw [List.replicate_succ]
    have hstep : applyRequest (p0 :: p1 :: rest) (Request.duplicateObject c)
        = p0 :: p1 :: { p1 with objectId := none } :: rest := by
      simp only [applyRequest, dupFirst, if_neg h0, if_pos h1]
    calc applyRequests
          (Request.duplicateObject c :: List.replicate k (Request.duplicateObject c))
          (p0 :: p1 :: rest)
        = applyRequests (List.replicate k (Request.duplicateObject c))
            (applyRequest (p0 :: p1 :: rest) (Request.duplicateObject c)) := rfl
      _ = applyRequests (List.replicate k (Request.duplicateObject c))
            (p0 :: p1 :: ({ p1 with objectId := none } :: rest)) := by rw [hstep]
      _ = p0 :: p1 :: (List.replicate k { p1 with objectId := none }
            ++ ({ p1 with objectId := none } :: rest)) := ih _
      _ = p0 :: p1 :: (List.replicate (k + 1) { p1 with objectId := none } ++ rest) := by
          rw [List.replicate_succ']
          simp

lemma del_step (s : String) (pre post : List Page) (m : Page) (hm : m.objectId = some s)
    (hpre : ∀ p ∈ pre, p.objectId ≠ some s) (hpost : ∀ p ∈ post, p.objectId ≠ some s) :
    applyRequest (pre ++ m :: post) (Request.deleteObject s) = pre ++ post := by
  simp only [applyRequest]
  rw [List.filter_append]
  have hkeep1 : pre.filter (fun p => decide (p.objectId ≠ some s)) = pre :=
    List.filter_eq_self.mpr (fun p hp => by simpa using hpre p hp)
  have hkeep2 : (m :: post).filter (fun p => decide (p.objectId ≠ some s)) = post := by
    rw [List.filter_cons_of_neg (by simp [hm])]
    exact List.filter_eq_self.mpr (fun p hp => by simpa using hpost p hp)
  rw [hkeep1, hkeep2]

lemma del_shape : ∀ (ms pre post : List Page),
    (∀ m ∈ ms, m.objectId ≠ none ∧ m.objectId ≠ some "") →
    ((ms.map Page.objectId).Nodup) →
    (∀ p, (p ∈ pre ∨ p ∈ post) → ∀ m ∈ ms, p.objectId ≠ m.objectId) →
    applyRequests (ms.map (fun m => Request.deleteObject (m.objectId.getD "")))
        (pre ++ (ms ++ post))
      = pre ++ post := by
  intro ms
  induction ms with
  | nil => intro pre post _ _ _; rfl
  | cons m ms ih =>
    intro pre post hids hnd hdisj
    obtain ⟨hm1, -⟩ := hids m (by simp)
    obtain ⟨s, hs⟩ := Option.ne_none_iff_exists'.mp hm1
    have hgd : m.objectId.getD "" = s := by rw [hs]; rfl
    rw [List.map_cons] at hnd
    have hnd' := List.nodup_cons.mp hnd
    have hstep : applyRequest (pre ++ (m :: ms ++ post)) (Request.deleteObject s)
        = pre ++ (ms ++ post) := by
      have := del_step s pre (ms ++ post) m hs
        (fun p hp => by rw [← hs]; exact hdisj p (Or.inl hp) m (by simp))
        (fun p hp => by
          rw [← hs]
          rcases List.mem_append.mp hp with hp1 | hp2
          · intro hcontra
            have hps : p.objectId = some s := hcontra.trans hs
            exact hnd'.1 (by rw [hs, ← hps]; exact List.mem_map_of_mem _ hp1)
          · exact hdisj p (Or.inr hp2) m (by simp))
      simpa using this
    calc applyRequests
          ((m :: ms).map (fun m => Request.deleteObject (m.objectId.getD "")))
          (pre ++ (m :: ms ++ post))
        = applyRequests (ms.map (fun m => Request.deleteObject (m.objectId.getD "")))
            (applyRequest (pre ++ (m :: ms ++ post)) (Request.deleteObject (m.objectId.getD ""))) := rfl
      _ = applyRequests (ms.map (fun m => Request.deleteObject (m.objectId.getD "")))
            (pre ++ (ms ++ post)) := by rw [hgd, hstep]
      _ = pre ++ post := ih pre post (fun x hx => hids x (by simp [hx])) hnd'.2
          (fun p hp m' hm' => hdisj p hp m' (by simp [hm']))

/-- Claim C1: under a well-formed template page list (shape
`p0 :: p1 :: mids ++ [plast]`, all ids present, non-empty and pairwise
distinct, content-layout id `c` at index 1) and a valid request
(`slides.length >= 1`), (1) applying the engine's structural batch to the
template page list yields exactly `N + 2` pages, and (2) whenever the
re-read page list has fewer than `N + 2` pages the run fails with the
structure error and the only batch ever issued is the structural one — no
fill batch is issued. -/
theorem claim_C1 (args : DeckArgs) (env : TemplateEnv) (pid c : String)
    (p0 p1 plast : Page) (mids : List Page)
    (htempl : env.templateSlides.getD [] = p0 :: p1 :: (mids ++ [plast]))
    (hc : p1.objectId = some c) (hcne : c ≠ "")
    (hids : ∀ p ∈ p0 :: p1 :: (mids ++ [plast]), p.objectId ≠ none ∧ p.objectId ≠ some "")
    (hnodup : ((p0 :: p1 :: (mids ++ [plast])).map Page.objectId).Nodup)
    (hN : 1 ≤ args.slides.length)
    (hpid : truthy env.copyId = some pid) :
    (applyRequests
        (structuralBatch args.slides.length c (p0 :: p1 :: (mids ++ [plast])))
        (p0 :: p1 :: (mids ++ [plast]))).length
      = args.slides.length + 2
    ∧ ((env.finalSlides.getD []).length < args.slides.length + 2 →
        createFromTemplate args env
          = .err "Template restructuring did not produce enough slides"
              (if structuralBatch args.slides.length c (p0 :: p1 :: (mids ++ [plast])) = []
               then []
               else [structuralBatch args.slides.length c (p0 :: p1 :: (mids ++ [plast]))])
        ∧ ∀ b ∈ (createFromTemplate args env).issued,
            b = structuralBatch args.slides.length c (p0 :: p1 :: (mids ++ [plast]))) := by
  rw [List.map_cons, List.map_cons] at hnodup
  have h0mem := (List.nodup_cons.mp hnodup).1
  have hrest1 := (List.nodup_cons.mp hnodup).2
  have h1mem := (List.nodup_cons.mp hrest1).1
  have hrestnd := (List.nodup_cons.mp hrest1).2
  have h0 : p0.objectId ≠ some c := by
    intro hcontra
    exact h0mem (by rw [hcontra, ← hc]; exact List.mem_cons_self _ _)
  have hmid : ∀ p ∈ mids, p.objectId ≠ none ∧ p.objectId ≠ some "" :=
    fun p hp => hids p (by simp [hp])
  have hmidnd : (mids.map Page.objectId).Nodup := by
    rw [List.map_append] at hrestnd
    exact (List.nodup_append.mp hrestnd).1
  have hplast : plast.objectId ∉ mids.map Page.objectId := by
    rw [List.map_append] at hrestnd
    intro hmem
    exact (List.nodup_append.mp hrestnd).2.2 hmem (by simp)
  constructor
  · unfold structuralBatch
    rw [structuralDeletes_concat_middle p0 p1 plast mids hmid, applyRequests_append,
      dup_shape c p0 p1 h0 hc (args.slides.length - 1) (mids ++ [plast])]
    have hre : p0 :: p1 :: (List.replicate (args.slides.length - 1)
          { p1 with objectId := none } ++ (mids ++ [plast]))
        = (p0 :: p1 :: List.replicate (args.slides.length - 1) { p1 with objectId := none })
          ++ (mids ++ [plast]) := by simp
    rw [hre, del_shape mids
      (p0 :: p1 :: List.replicate (args.slides.length - 1) { p1 with objectId := none })
      [plast] hmid hmidnd ?_]
    · simp only [List.length_append, List.length_cons, List.length_replicate, List.length_nil]
      omega
    · intro p hp m hm
      rcases hp with hp | hp
      · rcases List.mem_cons.mp hp with rfl | hp
        · intro hcontra
          exact h0mem (by
            rw [hcontra]
            exact List.mem_cons_of_mem _ (List.mem_map_of_mem _ (List.mem_append_left _ hm)))
        rcases List.mem_cons.mp hp with rfl | hp
        · intro hcontra
          exact h1mem (by
            rw [hcontra]
            exact List.mem_map_of_mem _ (List.mem_append_left _ hm))
        · have : p = { p1 with objectId := none } := (List.eq_of_mem_replicate hp)
          rw [this]
          have := (hmid m hm).1
          intro hcontra
          exact this hcontra.symm
      · have : p = plast := by simpa using hp
        rw [this]
        intro hcontra
        exact hplast (by rw [hcontra]; exact List.mem_map_of_mem _ hm)
  · intro hfin
    have hlen3 : ¬(p0 :: p1 :: (mids ++ [plast])).length < 3 := by
      simp only [List.length_cons, List.length_append, List.length_singleton]
      omega
    have hcl : truthy (((p0 :: p1 :: (mids ++ [plast]))[1]?).bind Page.objectId) = some c := by
      simp only [List.getElem?_cons_succ, List.getElem?_cons_zero, Option.some_bind, hc]
      simp [truthy, hcne]
    have hrun : createFromTemplate args env
        = .err "Template restructuring did not produce enough slides"
            (if structuralBatch args.slides.length c (p0 :: p1 :: (mids ++ [plast])) = []
             then []
             else [structuralBatch args.slides.length c (p0 :: p1 :: (mids ++ [plast]))]) := by
      simp only [createFromTemplate, hpid, htempl, if_neg hlen3, hcl]
      rw [if_pos (by omega : (env.finalSlides.getD []).length < 1 + args.slides.length + 1)]
    refine ⟨hrun, ?_⟩
    rw [hrun]
    intro b hb
    simp only [TemplateResult.issued] at hb
    split at hb
    · simp at hb
    · simpa using hb

/-- Claim C1 (witness): `N = 2` against a 4-page template (one deletable
middle page): applying the structural batch yields `4 = N + 2` pages, and a
re-read of length `0 < N + 2` ends the run with the structure error, the
structural batch being the only batch issued. -/
theorem claim_C1_witness :
    (applyRequests
        (structuralBatch 2 "p1"
          [{ objectId := some "p0" }, { objectId := some "p1" },
           { objectId := some "mid" }, { objectId := some "p3" }])
        [{ objectId := some "p0" }, { objectId := some "p1" },
         { objectId := some "mid" }, { objectId := some "p3" }]).length = 4
    ∧ createFromTemplate ⟨"Deck", [{}, {}], none⟩
        ⟨some "p",
         some [{ objectId := some "p0" }, { objectId := some "p1" },
               { objectId := some "mid" }, { objectId := some "p3" }],
         some []⟩
      = .err "Template restructuring did not produce enough slides"
          [[Request.duplicateObject "p1", Request.deleteObject "mid"]] := by
  have h := claim_C1 ⟨"Deck", [{}, {}], none⟩
      ⟨some "p", some [{ objectId := some "p0" }, { objectId := some "p1" },
        { objectId := some "mid" }, { objectId := some "p3" }], some []⟩
      "p" "p1" { objectId := some "p0" } { objectId := some "p1" } { objectId := some "p3" }
      [{ objectId := some "mid" }] rfl rfl (by decide) (by decide) (by decide) (by decide)
      (by decide)
  refine ⟨h.1, ?_⟩
  exact (h.2 (by decide)).1.trans (by decide)

lemma mem_fillBatch {r : Request} {args : DeckArgs} {finalSlides : List Page} :
    r ∈ fillBatch args finalSlides ↔
      (r ∈ (match (getTitleAndBodyPlaceholders
              ((finalSlides[0]?).bind Page.pageElements)).title with
            | some t => [Request.deleteText t.objectId,
                Request.insertText t.objectId args.title 0]
            | none => ([] : List Request))
       ∨ ∃ i, i < args.slides.length
          ∧ r ∈ fillForContentSlide ((args.slides[i]?).getD {})
              ((finalSlides[1 + i]?).bind Page.pageElements)) := by
  unfold fillBatch
  rw [List.mem_append, List.mem_flatMap]
  constructor
  · rintro (h | ⟨i, hi, hmem⟩)
    · exact Or.inl h
    · exact Or.inr ⟨i, List.mem_range.mp hi, hmem⟩
  · rintro (h | ⟨i, hi, hmem⟩)
    · exact Or.inl h
    · exact Or.inr ⟨i, List.mem_range.mpr hi, hmem⟩

lemma targets_of_mem_fillForContentSlide {r : Request} {slide : SlideContent}
    {pes : Option (List PageElement)} (h : r ∈ fillForContentSlide slide pes) :
    (∃ t, (getTitleAndBodyPlaceholders pes).title = some t
        ∧ (r = Request.deleteText t.objectId
           ∨ r = Request.insertText t.objectId (contentTitleText slide) 0))
    ∨ (∃ b, (getTitleAndBodyPlaceholders pes).body = some b
        ∧ buildSlideBodyText slide ≠ ""
        ∧ (r = Request.deleteText b.objectId
           ∨ r = Request.insertText b.objectId (buildSlideBodyText slide) 0)) := by
  unfold fillForContentSlide at h
  rcases List.mem_append.mp h with h | h
  · unfold titleFillPart at h
    cases ht : (getTitleAndBodyPlaceholders pes).title with
    | none => rw [ht] at h; simp at h
    | some t =>
      rw [ht] at h
      refine Or.inl ⟨t, rfl, ?_⟩
      simpa using h
  · unfold bodyFillPart at h
    cases hb : (getTitleAndBodyPlaceholders pes).body with
    | none => rw [hb] at h; simp at h
    | some b =>
      simp only [hb] at h
      by_cases he : buildSlideBodyText slide = ""
      · rw [if_pos he] at h; simp at h
      · rw [if_neg he] at h
        refine Or.inr ⟨b, rfl, he, ?_⟩
        simpa using h

lemma page0_targets {r : Request} {title0 : String} {tb : TB}
    (h : r ∈ (match tb.title with
      | some t => [Request.deleteText t.objectId, Request.insertText t.objectId title0 0]
      | none => ([] : List Request))) :
    ∃ t, tb.title = some t
      ∧ (r = Request.deleteText t.objectId ∨ r = Request.insertText t.objectId title0 0) := by
  cases ht : tb.title with
  | none => rw [ht] at h; simp at h
  | some t =>
    rw [ht] at h
    refine ⟨t, rfl, ?_⟩
    simpa using h

/-- Claim C3 (counterexample): in blank mode, page 0 doubles as the first
content slide: with `slides[0].body = "x"` and a first page whose resolved
body element is `"b"`, the emitted batch contains `insertText("b", "x", 0)`
— an insert-text operation targeting the body element of page 0 — refuting
«the first page never receives body text ... in either template mode or
blank mode». -/
theorem claim_C3_cex :
    (blankResolve
        [{ objectId := some "t", shape := some { placeholder := some { type := some "TITLE" } } },
         { objectId := some "b", shape := some { placeholder := some { type := some "BODY" } } }]).2
      = some "b"
    ∧ Request.insertText "b" "x" 0
        ∈ (createBlank ⟨"Deck", [{ body := some "x" }], none⟩
            ⟨some "p",
             some [{ objectId := some "s0",
                     pageElements := some
                       [{ objectId := some "t",
                          shape := some { placeholder := some { type := some "TITLE" } } },
                        { objectId := some "b",
                          shape := some { placeholder := some { type := some "BODY" } } }] }]⟩).requests := by
  decide

/-- Claim C3 (amended): in template mode the title page receives no body
text — under distinct resolved element ids, no insert-text in the fill
batch targets page 0's resolved body element (page 0 is filled title-only);
in blank mode, however, page 0 doubles as the first content slide and its
resolved body element receives the composed body text of `slides[0]`
whenever that text is non-empty. -/
theorem claim_C3_amended :
    (∀ (args : DeckArgs) (finalSlides : List Page) (b0 : PlaceholderInfo),
      (getTitleAndBodyPlaceholders ((finalSlides[0]?).bind Page.pageElements)).body = some b0 →
      (∀ t, (getTitleAndBodyPlaceholders ((finalSlides[0]?).bind Page.pageElements)).title
          = some t → t.objectId ≠ b0.objectId) →
      (∀ i, i < args.slides.length →
        (∀ t, (getTitleAndBodyPlaceholders
            ((finalSlides[1 + i]?).bind Page.pageElements)).title = some t →
          t.objectId ≠ b0.objectId)
        ∧ (∀ b, (getTitleAndBodyPlaceholders
            ((finalSlides[1 + i]?).bind Page.pageElements)).body = some b →
          b.objectId ≠ b0.objectId)) →
      ∀ s k, Request.insertText b0.objectId s k ∉ fillBatch args finalSlides)
    ∧ (∀ (args : DeckArgs) (env : BlankEnv) (pid b : String),
        truthy env.presentationId = some pid →
        truthy (blankResolve
            (((env.slidesRead.bind (fun ss => ss[0]?)).bind Page.pageElements).getD [])).2
          = some b →
        buildSlideBodyText ((args.slides[0]?).getD {}) ≠ "" →
        Request.insertText b (buildSlideBodyText ((args.slides[0]?).getD {})) 0
          ∈ (createBlank args env).requests) := by
  constructor
  · intro args finalSlides b0 hb0 ht0 hcontent s k hmem
    rcases mem_fillBatch.mp hmem with h | ⟨i, hi, h⟩
    · obtain ⟨t, ht, hr | hr⟩ := page0_targets h
      · simp at hr
      · injection hr with h1 h2 h3
        exact ht0 t ht h1.symm
    · rcases targets_of_mem_fillForContentSlide h with ⟨t, ht, hr | hr⟩ | ⟨b, hbb, hne, hr | hr⟩
      · simp at hr
      · injection hr with h1 h2 h3
        exact (hcontent i hi).1 t ht h1.symm
      · simp at hr
      · injection hr with h1 h2 h3
        exact (hcontent i hi).2 b hbb h1.symm
  · intro args env pid b hpid hb hbody
    simp only [createBlank, hpid, BlankResult.requests]
    rw [List.mem_append]
    left
    rw [List.mem_append]
    right
    simp only [hb, if_neg hbody]
    simp

/-- Claim C3 (witness): with one empty content slide and a 3-page re-read
whose page 0 resolves body `"b0"`, no insert-text in the fill batch targets
`"b0"`; and in blank mode a page-0 body element `"bb2"` receives the
composed body `"y"` of `slides[0]`. -/
theorem claim_C3_witness :
    Request.insertText "b0" "" 0
      ∉ fillBatch ⟨"Deck", [{}], none⟩
          [{ objectId := some "s0",
              pageElements := some
                [{ objectId := some "t0",
                   shape := some { placeholder := some { type := some "TITLE" } } },
                 { objectId := some "b0",
                   shape := some { placeholder := some { type := some "BODY" } } }] },
           { objectId := some "s1",
              pageElements := some
                [{ objectId := some "tt",
                   shape := some { placeholder := some { type := some "TITLE" } } },
                 { objectId := some "bb",
                   shape := some { placeholder := some { type := some "BODY" } } }] },
           { objectId := some "s2" }]
    ∧ Request.insertText "bb2" "y" 0
        ∈ (createBlank ⟨"Deck2", [{ body := some "y" }], none⟩
            ⟨some "p2",
             some [{ objectId := some "s0",
                     pageElements := some
                       [{ objectId := some "tt2",
                          shape := some { placeholder := some { type := some "TITLE" } } },
                        { objectId := some "bb2",
                          shape := some { placeholder := some { type := some "BODY" } } }] }]⟩).requests := by
  constructor
  · exact claim_C3_amended.1 ⟨"Deck", [{}], none⟩
      [{ objectId := some "s0",
          pageElements := some
            [{ objectId := some "t0",
               shape := some { placeholder := some { type := some "TITLE" } } },
             { objectId := some "b0",
               shape := some { placeholder := some { type := some "BODY" } } }] },
       { objectId := some "s1",
          pageElements := some
            [{ objectId := some "tt",
               shape := some { placeholder := some { type := some "TITLE" } } },
             { objectId := some "bb",
               shape := some { placeholder := some { type := some "BODY" } } }] },
       { objectId := some "s2" }] ⟨"b0", "BODY"⟩ rfl
      (fun t ht => by
        have h2 : some (⟨"t0", "TITLE"⟩ : PlaceholderInfo) = some t := ht
        obtain rfl := Option.some.inj h2
        decide)
      (fun i hi => by
        obtain rfl : i = 0 := Nat.lt_one_iff.mp hi
        constructor
        · intro t ht
          have h2 : some (⟨"tt", "TITLE"⟩ : PlaceholderInfo) = some t := ht
          obtain rfl := Option.some.inj h2
          decide
        · intro b hb
          have h2 : some (⟨"bb", "BODY"⟩ : PlaceholderInfo) = some b := hb
          obtain rfl := Option.some.inj h2
          decide)
      "" 0
  · exact claim_C3_amended.2 ⟨"Deck2", [{ body := some "y" }], none⟩
      ⟨some "p2",
       some [{ objectId := some "s0",
               pageElements := some
                 [{ objectId := some "tt2",
                    shape := some { placeholder := some { type := some "TITLE" } } },
                  { objectId := some "bb2",
                    shape := some { placeholder := some { type := some "BODY" } } }] }]⟩
      "p2" "bb2" (by decide) (by decide) (by decide)

/-- Claim C7: in template mode, when the composed body text of content
slide `i` is empty, no delete-text and no insert-text in the fill batch
targets that page's resolved body element (so its existing text is left
untouched); stated under distinctness of the resolved element ids across
the filled pages. -/
theorem claim_C7 (args : DeckArgs) (finalSlides : List Page) (i : Nat)
    (hi : i < args.slides.length) (b : PlaceholderInfo)
    (hb : (getTitleAndBodyPlaceholders ((finalSlides[1 + i]?).bind Page.pageElements)).body
        = some b)
    (hempty : buildSlideBodyText ((args.slides[i]?).getD {}) = "")
    (h0 : ∀ t, (getTitleAndBodyPlaceholders ((finalSlides[0]?).bind Page.pageElements)).title
        = some t → t.objectId ≠ b.objectId)
    (hall : ∀ j, j < args.slides.length →
        (∀ t, (getTitleAndBodyPlaceholders
            ((finalSlides[1 + j]?).bind Page.pageElements)).title = some t →
          t.objectId ≠ b.objectId)
        ∧ (j ≠ i → ∀ b2, (getTitleAndBodyPlaceholders
            ((finalSlides[1 + j]?).bind Page.pageElements)).body = some b2 →
          b2.objectId ≠ b.objectId)) :
    Request.deleteText b.objectId ∉ fillBatch args finalSlides
    ∧ ∀ s k, Request.insertText b.objectId s k ∉ fillBatch args finalSlides := by
  have main : ∀ (r : Request) (oid : String),
      (∃ s k, r = Request.insertText oid s k) ∨ r = Request.deleteText oid →
      oid = b.objectId → r ∉ fillBatch args finalSlides := by
    intro r oid hshape hoid hmem
    subst hoid
    rcases mem_fillBatch.mp hmem with h | ⟨j, hj, h⟩
    · obtain ⟨t, ht, hr | hr⟩ := page0_targets h
      · rcases hshape with ⟨s, k, rfl⟩ | rfl
        · simp at hr
        · injection hr with h1
          exact h0 t ht h1.symm
      · rcases hshape with ⟨s, k, rfl⟩ | rfl
        · injection hr with h1 h2 h3
          exact h0 t ht h1.symm
        · simp at hr
    · rcases targets_of_mem_fillForContentSlide h with ⟨t, ht, hr | hr⟩ | ⟨b2, hb2, hne, hr | hr⟩
      · rcases hshape with ⟨s, k, rfl⟩ | rfl
        · simp at hr
        · injection hr with h1
          exact (hall j hj).1 t ht h1.symm
      · rcases hshape with ⟨s, k, rfl⟩ | rfl
        · injection hr with h1 h2 h3
          exact (hall j hj).1 t ht h1.symm
        · simp at hr
      · by_cases hji : j = i
        · subst hji
          rw [hb] at hb2
          obtain rfl := Option.some.inj hb2
          exact hne hempty
        · rcases hshape with ⟨s, k, rfl⟩ | rfl
          · simp at hr
          · injection hr with h1
            exact (hall j hj).2 hji b2 hb2 h1.symm
      · by_cases hji : j = i
        · subst hji
          rw [hb] at hb2
          obtain rfl := Option.some.inj hb2
          exact hne hempty
        · rcases hshape with ⟨s, k, rfl⟩ | rfl
          · injection hr with h1 h2 h3
            exact (hall j hj).2 hji b2 hb2 h1.symm
          · simp at hr
  exact ⟨main (Request.deleteText b.objectId) b.objectId (Or.inr rfl) rfl,
    fun s k => main (Request.insertText b.objectId s k) b.objectId (Or.inl ⟨s, k, rfl⟩) rfl⟩

/-- Claim C7 (witness): with one all-empty content slide whose page
resolves title `"tt"` and body `"bb"`, the fill batch contains neither a
delete-text nor an insert-text targeting `"bb"`. -/
theorem claim_C7_witness :
    Request.deleteText "bb"
      ∉ fillBatch ⟨"Deck", [{}], none⟩
          [{ objectId := some "s0",
              pageElements := some
                [{ objectId := some "t0",
                   shape := some { placeholder := some { type := some "TITLE" } } }] },
           { objectId := some "s1",
              pageElements := some
                [{ objectId := some "tt",
                   shape := some { placeholder := some { type := some "TITLE" } } },
                 { objectId := some "bb",
                   shape := some { placeholder := some { type := some "BODY" } } }] },
           { objectId := some "s2" }]
    ∧ Request.insertText "bb" "" 0
        ∉ fillBatch ⟨"Deck", [{}], none⟩
          [{ objectId := some "s0",
              pageElements := some
                [{ objectId := some "t0",
                   shape := some { placeholder := some { type := some "TITLE" } } }] },
           { objectId := some "s1",
              pageElements := some
                [{ objectId := some "tt",
                   shape := some { placeholder := some { type := some "TITLE" } } },
                 { objectId := some "bb",
                   shape := some { placeholder := some { type := some "BODY" } } }] },
           { objectId := some "s2" }] := by
  have h := claim_C7 ⟨"Deck", [{}], none⟩
      [{ objectId := some "s0",
          pageElements := some
            [{ objectId := some "t0",
               shape := some { placeholder := some { type := some "TITLE" } } }] },
       { objectId := some "s1",
          pageElements := some
            [{ objectId := some "tt",
               shape := some { placeholder := some { type := some "TITLE" } } },
             { objectId := some "bb",
               shape := some { placeholder := some { type := some "BODY" } } }] },
       { objectId := some "s2" }] 0 (by decide) ⟨"bb", "BODY"⟩ rfl rfl
      (fun t ht => by
        have h2 : some (⟨"t0", "TITLE"⟩ : PlaceholderInfo) = some t := ht
        obtain rfl := Option.some.inj h2
        decide)
      (fun j hj => by
        obtain rfl : j = 0 := Nat.lt_one_iff.mp hj
        constructor
        · intro t ht
          have h2 : some (⟨"tt", "TITLE"⟩ : PlaceholderInfo) = some t := ht
          obtain rfl := Option.some.inj h2
          decide
        · intro hcontra
          exact absurd rfl hcontra)
  exact ⟨h.1, h.2 "" 0⟩

lemma flatMap_decomp {α β : Type} (f : α → List β) {l : List α} {a : α} (h : a ∈ l) :
    ∃ l1 l2, l.flatMap f = l1 ++ f a ++ l2 := by
  obtain ⟨s, t, rfl⟩ := List.append_of_mem h
  refine ⟨s.flatMap f, t.flatMap f, ?_⟩
  rw [List.flatMap_append, List.flatMap_cons]
  simp [List.append_assoc]

lemma blankSlideRequests_no_deleteText {slide : SlideContent} {i : Nat} {oid : String} :
    Request.deleteText oid ∉ blankSlideRequests slide i := by
  unfold blankSlideRequests
  intro h
  by_cases h1 : contentTitleText slide = "" <;> by_cases h2 : buildSlideBodyText slide = "" <;>
    simp [h1, h2] at h

lemma blankFirst_no_deleteText {t b : Option String} {title0 body0 : String} {oid : String} :
    Request.deleteText oid
      ∉ ((match truthy t with
          | some titleObjectId => [Request.insertText titleObjectId title0 0]
          | none => ([] : List Request))
        ++ (match truthy b with
          | some bodyObjectId =>
            if body0 = "" then [] else [Request.insertText bodyObjectId body0 0]
          | none => ([] : List Request))) := by
  intro h
  rcases List.mem_append.mp h with h | h
  · cases ht : truthy t with
    | none => rw [ht] at h; simp at h
    | some x => rw [ht] at h; simp at h
  · cases hb : truthy b with
    | none => rw [hb] at h; simp at h
    | some x =>
      simp only [hb] at h
      by_cases hbe : body0 = ""
      · rw [if_pos hbe] at h; simp at h
      · rw [if_neg hbe] at h; simp at h

lemma digitChar_inj_lt :
    ∀ d1, d1 < 10 → ∀ d2, d2 < 10 → Nat.digitChar d1 = Nat.digitChar d2 → d1 = d2 := by
  decide

lemma toDigitsCore_eq_digits :
    ∀ (f n : Nat) (ds : List Char), n < f →
      Nat.toDigitsCore 10 f n ds
        = (if n = 0 then ['0']
           else ((Nat.digits 10 n).map Nat.digitChar).reverse) ++ ds := by
  intro f
  induction f with
  | zero => intro n ds h; exact absurd h (Nat.not_lt_zero n)
  | succ f ih =>
    intro n ds h
    rw [show Nat.toDigitsCore 10 (f + 1) n ds
        = (if n / 10 = 0 then Nat.digitChar (n % 10) :: ds
           else Nat.toDigitsCore 10 f (n / 10) (Nat.digitChar (n % 10) :: ds)) from by
      simp only [Nat.toDigitsCore]]
    by_cases h10 : n / 10 = 0
    · rw [if_pos h10]
      by_cases hn : n = 0
      · subst hn
        rfl
      · rw [if_neg hn]
        have hlt : n < 10 := (Nat.div_eq_zero_iff (by norm_num)).mp h10
        have hd : Nat.digits 10 n = [n] := by
          rw [Nat.digits_def' (by norm_num : (1:ℕ) < 10) (Nat.pos_of_ne_zero hn), h10,
            Nat.mod_eq_of_lt hlt]
          simp
        rw [hd]
        simp [Nat.mod_eq_of_lt hlt]
    · rw [if_neg h10]
      have hn0 : n ≠ 0 := by
        intro h0
        subst h0
        simp at h10
      have hlt : n / 10 < f := by
        have h1 : n / 10 < n := Nat.div_lt_self (Nat.pos_of_ne_zero hn0) (by norm_num)
        omega
      rw [ih (n / 10) (Nat.digitChar (n % 10) :: ds) hlt, if_neg h10,
        Nat.digits_def' (by norm_num : (1:ℕ) < 10) (Nat.pos_of_ne_zero hn0)]
      simp [List.append_assoc, hn0]

lemma map_digitChar_inj :
    ∀ (l1 l2 : List Nat), (∀ d ∈ l1, d < 10) → (∀ d ∈ l2, d < 10) →
      l1.map Nat.digitChar = l2.map Nat.digitChar → l1 = l2 := by
  intro l1
  induction l1 with
  | nil =>
    intro l2 _ _ h
    cases l2 with
    | nil => rfl
    | cons b t2 => simp at h
  | cons a t ih =>
    intro l2 h1 h2 h
    cases l2 with
    | nil => simp at h
    | cons b t2 =>
      simp only [List.map_cons, List.cons.injEq] at h
      rw [digitChar_inj_lt a (h1 a (by simp)) b (h2 b (by simp)) h.1,
        ih t2 (fun d hd => h1 d (by simp [hd])) (fun d hd => h2 d (by simp [hd])) h.2]

lemma natRepr_inj {m n : Nat} (h : Nat.repr m = Nat.repr n) : m = n := by
  have hdata : Nat.toDigitsCore 10 (m + 1) m [] = Nat.toDigitsCore 10 (n + 1) n [] :=
    congrArg String.data h
  rw [toDigitsCore_eq_digits (m + 1) m [] (by omega),
    toDigitsCore_eq_digits (n + 1) n [] (by omega)] at hdata
  simp only [List.append_nil] at hdata
  have hzero : ∀ k : Nat, k ≠ 0 →
      ((Nat.digits 10 k).map Nat.digitChar).reverse ≠ ['0'] := by
    intro k hk hcontra
    have hmap : (Nat.digits 10 k).map Nat.digitChar = ['0'] := by
      have := congrArg List.reverse hcontra
      simpa using this
    cases hdig : Nat.digits 10 k with
    | nil => rw [hdig] at hmap; simp at hmap
    | cons d rest =>
      rw [hdig] at hmap
      cases rest with
      | cons _ _ => simp at hmap
      | nil =>
        simp only [List.map_cons, List.map_nil, List.cons.injEq] at hmap
        have hd10 : d < 10 :=
          Nat.digits_lt_base (by norm_num) (hdig ▸ List.mem_cons_self d [])
        have hd0 : d = 0 := digitChar_inj_lt d hd10 0 (by norm_num) (by rw [hmap.1]; rfl)
        have hof := Nat.ofDigits_digits 10 k
        rw [hdig, hd0] at hof
        simp [Nat.ofDigits] at hof
        exact hk hof.symm
  by_cases hm : m = 0 <;> by_cases hn : n = 0
  · omega
  · rw [if_pos hm, if_neg hn] at hdata
    exact absurd hdata.symm (hzero n hn)
  · rw [if_neg hm, if_pos hn] at hdata
    exact absurd hdata (hzero m hm)
  · rw [if_neg hm, if_neg hn] at hdata
    have hrev := congrArg List.reverse hdata
    simp only [List.reverse_reverse] at hrev
    have hdigeq := map_digitChar_inj (Nat.digits 10 m) (Nat.digits 10 n)
      (fun d hd => Nat.digits_lt_base (by norm_num) hd)
      (fun d hd => Nat.digits_lt_base (by norm_num) hd) hrev
    exact Nat.digits_inj_iff.mp hdigeq

lemma natToString_inj {m n : Nat} (h : toString m = toString n) : m = n :=
  natRepr_inj h

lemma string_append_right_inj {p a b : String} (h : p ++ a = p ++ b) : a = b := by
  have hd : p.data ++ a.data = p.data ++ b.data := congrArg String.data h
  exact String.ext (List.append_cancel_left hd)

lemma titleBox_ne_bodyBox (a b : String) : ("title_" ++ a) ≠ ("body_" ++ b) := by
  intro h
  have hd : 't' :: 'i' :: 't' :: 'l' :: 'e' :: '_' :: a.data
      = 'b' :: 'o' :: 'd' :: 'y' :: '_' :: b.data := congrArg String.data h
  simp at hd

lemma titleBox_inj {i j : Nat}
    (h : "title_" ++ toString i = "title_" ++ toString j) : i = j :=
  natToString_inj (string_append_right_inj h)

lemma bodyBox_inj {i j : Nat}
    (h : "body_" ++ toString i = "body_" ++ toString j) : i = j :=
  natToString_inj (string_append_right_inj h)

lemma countP_flatMap {α : Type} (p : Request → Bool) (f : α → List Request) :
    ∀ l : List α, (l.flatMap f).countP p = (l.map fun a => (f a).countP p).sum := by
  intro l
  induction l with
  | nil => rfl
  | cons a t ih => rw [List.flatMap_cons, List.countP_append, List.map_cons, List.sum_cons, ih]

lemma sum_map_eq_single {α : Type} (l : List α) (g : α → Nat) (a : α) (ha : a ∈ l)
    (hnd : l.Nodup) (hz : ∀ b ∈ l, b ≠ a → g b = 0) : (l.map g).sum = g a := by
  obtain ⟨s, t, rfl⟩ := List.append_of_mem ha
  have hns : a ∉ s := by
    intro hmem
    exact (List.nodup_append.mp hnd).2.2 hmem (by simp)
  rw [List.map_append, List.map_cons, List.sum_append, List.sum_cons]
  have hs0 : (s.map g).sum = 0 := List.sum_eq_zero (by
    intro x hx
    obtain ⟨b, hb, rfl⟩ := List.mem_map.mp hx
    exact hz b (by simp [hb]) (fun hba => hns (hba ▸ hb)))
  have ht0 : (t.map g).sum = 0 := List.sum_eq_zero (by
    intro x hx
    obtain ⟨b, hb, rfl⟩ := List.mem_map.mp hx
    refine hz b (by simp [hb]) (fun hba => ?_)
    subst hba
    have := (List.nodup_append.mp hnd).2.1
    exact (List.nodup_cons.mp this).1 hb)
  rw [hs0, ht0]
  omega

lemma countP_blankSlideRequests_title (slide : SlideContent) (i j : Nat) :
    (blankSlideRequests slide j).countP (isInsertTargeting ("title_" ++ toString (i + 1)))
      = if j = i ∧ ¬contentTitleText slide = "" then 1 else 0 := by
  have hbt : (("body_" ++ toString (j + 1) : String) == ("title_" ++ toString (i + 1))) = false := by
    rw [beq_eq_false_iff_ne]
    exact fun h => titleBox_ne_bodyBox (toString (i + 1)) (toString (j + 1)) h.symm
  by_cases hj : j = i
  · subst hj
    by_cases ht : contentTitleText slide = "" <;> by_cases hb : buildSlideBodyText slide = "" <;>
      simp [blankSlideRequests, ht, hb, List.countP_append, List.countP_cons, List.countP_nil,
        isInsertTargeting, hbt]
  · have htt : (("title_" ++ toString (j + 1) : String)
        == ("title_" ++ toString (i + 1))) = false := by
      rw [beq_eq_false_iff_ne]
      intro h
      have := titleBox_inj h
      omega
    by_cases ht : contentTitleText slide = "" <;> by_cases hb : buildSlideBodyText slide = "" <;>
      simp [blankSlideRequests, ht, hb, hj, List.countP_append, List.countP_cons, List.countP_nil,
        isInsertTargeting, hbt, htt]

lemma countP_blankSlideRequests_body (slide : SlideContent) (i j : Nat) :
    (blankSlideRequests slide j).countP (isInsertTargeting ("body_" ++ toString (i + 1)))
      = if j = i ∧ ¬buildSlideBodyText slide = "" then 1 else 0 := by
  have htb : (("title_" ++ toString (j + 1) : String) == ("body_" ++ toString (i + 1))) = false := by
    rw [beq_eq_false_iff_ne]
    exact fun h => titleBox_ne_bodyBox (toString (j + 1)) (toString (i + 1)) h
  by_cases hj : j = i
  · subst hj
    by_cases ht : contentTitleText slide = "" <;> by_cases hb : buildSlideBodyText slide = "" <;>
      simp [blankSlideRequests, ht, hb, List.countP_append, List.countP_cons, List.countP_nil,
        isInsertTargeting, htb]
  · have hbb : (("body_" ++ toString (j + 1) : String)
        == ("body_" ++ toString (i + 1))) = false := by
      rw [beq_eq_false_iff_ne]
      intro h
      have := bodyBox_inj h
      omega
    by_cases ht : contentTitleText slide = "" <;> by_cases hb : buildSlideBodyText slide = "" <;>
      simp [blankSlideRequests, ht, hb, hj, List.countP_append, List.countP_cons, List.countP_nil,
        isInsertTargeting, htb, hbb]

lemma countP_blankFirst_zero {t b : Option String} {title0 body0 : String} {boxId : String}
    (hta : ∀ x, truthy t = some x → x ≠ boxId)
    (htb : ∀ x, truthy b = some x → x ≠ boxId) :
    ((match truthy t with
      | some titleObjectId => [Request.insertText titleObjectId title0 0]
      | none => ([] : List Request))
     ++ (match truthy b with
      | some bodyObjectId =>
        if body0 = "" then [] else [Request.insertText bodyObjectId body0 0]
      | none => ([] : List Request))).countP (isInsertTargeting boxId) = 0 := by
  rw [List.countP_append]
  have h1 : (match truthy t with
      | some titleObjectId => [Request.insertText titleObjectId title0 0]
      | none => ([] : List Request)).countP (isInsertTargeting boxId) = 0 := by
    cases htv : truthy t with
    | none => rfl
    | some x => simp [isInsertTargeting, List.countP_cons, hta x htv]
  have h2 : (match truthy b with
      | some bodyObjectId =>
        if body0 = "" then [] else [Request.insertText bodyObjectId body0 0]
      | none => ([] : List Request)).countP (isInsertTargeting boxId) = 0 := by
    cases hbv : truthy b with
    | none => rfl
    | some x =>
      by_cases hb0 : body0 = "" <;> simp [hb0, isInsertTargeting, List.countP_cons, htb x hbv]
  rw [h1, h2]

/-- Claim C8 (counterexample): in blank mode, the created title box of
slide 1 (`"title_2"`) receives a plain insert-text with the trimmed slide
title, but no delete-text operation is emitted for it (the whole blank
batch contains no delete-text), refuting «the fill batch always contains a
delete-text operation followed by an insert-text operation for that title
element» for blank mode. -/
theorem claim_C8_cex :
    Request.insertText "title_2" "T" 0
      ∈ (createBlank ⟨"Deck", [{}, { title := some "T" }], none⟩
          ⟨some "p", some [{ objectId := some "s0", pageElements := some [] }]⟩).requests
    ∧ Request.deleteText "title_2"
      ∉ (createBlank ⟨"Deck", [{}, { title := some "T" }], none⟩
          ⟨some "p", some [{ objectId := some "s0", pageElements := some [] }]⟩).requests := by
  decide

/-- Claim C8 (amended): in template mode, every content page `1 + i` with a
resolved title target contributes a contiguous block `delete-text;
insert-text` for the title element with the possibly empty trimmed slide
title, followed by the body part, which is `delete-text; insert-text` for
the resolved body element exactly when a body target exists and the
composed body text is non-empty, and empty otherwise. In blank mode no
delete-text is ever emitted, and each created title/body box receives
exactly one insert-text when the corresponding text is non-empty and none
when it is empty: counting every insert-text in the whole batch that
targets the box, the count is 1 in the non-empty case and 0 in the empty
case, under the proviso that the resolved placeholder ids of the read
first page do not alias the created box ids. -/
theorem claim_C8_amended :
    (∀ (args : DeckArgs) (finalSlides : List Page) (i : Nat), i < args.slides.length →
      ∀ t, (getTitleAndBodyPlaceholders ((finalSlides[1 + i]?).bind Page.pageElements)).title
          = some t →
      (∃ l1 l2, fillBatch args finalSlides
          = l1 ++ ([Request.deleteText t.objectId,
                Request.insertText t.objectId (contentTitleText ((args.slides[i]?).getD {})) 0]
              ++ bodyFillPart ((args.slides[i]?).getD {})
                  ((finalSlides[1 + i]?).bind Page.pageElements)) ++ l2)
      ∧ ((∃ b, (getTitleAndBodyPlaceholders ((finalSlides[1 + i]?).bind Page.pageElements)).body
              = some b
            ∧ buildSlideBodyText ((args.slides[i]?).getD {}) ≠ ""
            ∧ bodyFillPart ((args.slides[i]?).getD {})
                ((finalSlides[1 + i]?).bind Page.pageElements)
              = [Request.deleteText b.objectId,
                 Request.insertText b.objectId (buildSlideBodyText ((args.slides[i]?).getD {})) 0])
         ∨ (bodyFillPart ((args.slides[i]?).getD {})
              ((finalSlides[1 + i]?).bind Page.pageElements) = []
            ∧ ((getTitleAndBodyPlaceholders ((finalSlides[1 + i]?).bind Page.pageElements)).body
                = none
              ∨ buildSlideBodyText ((args.slides[i]?).getD {}) = ""))))
    ∧ (∀ (args : DeckArgs) (env : BlankEnv) (oid : String),
        Request.deleteText oid ∉ (createBlank args env).requests)
    ∧ (∀ (args : DeckArgs) (env : BlankEnv) (pid : String) (i : Nat),
        truthy env.presentationId = some pid → 1 ≤ i → i < args.slides.length →
        (contentTitleText ((args.slides[i]?).getD {}) ≠ "" →
          Request.insertText ("title_" ++ toString (i + 1))
              (contentTitleText ((args.slides[i]?).getD {})) 0
            ∈ (createBlank args env).requests)
        ∧ (buildSlideBodyText ((args.slides[i]?).getD {}) ≠ "" →
          Request.insertText ("body_" ++ toString (i + 1))
              (buildSlideBodyText ((args.slides[i]?).getD {})) 0
            ∈ (createBlank args env).requests))
    ∧ (∀ (args : DeckArgs) (env : BlankEnv) (pid : String) (i : Nat),
        truthy env.presentationId = some pid → 1 ≤ i → i < args.slides.length →
        (∀ x, truthy (blankResolve
            (((env.slidesRead.bind (fun ss => ss[0]?)).bind Page.pageElements).getD [])).1
            = some x → x ≠ "title_" ++ toString (i + 1) ∧ x ≠ "body_" ++ toString (i + 1)) →
        (∀ x, truthy (blankResolve
            (((env.slidesRead.bind (fun ss => ss[0]?)).bind Page.pageElements).getD [])).2
            = some x → x ≠ "title_" ++ toString (i + 1) ∧ x ≠ "body_" ++ toString (i + 1)) →
        ((createBlank args env).requests.countP
            (isInsertTargeting ("title_" ++ toString (i + 1)))
          = if contentTitleText ((args.slides[i]?).getD {}) = "" then 0 else 1)
        ∧ ((createBlank args env).requests.countP
            (isInsertTargeting ("body_" ++ toString (i + 1)))
          = if buildSlideBodyText ((args.slides[i]?).getD {}) = "" then 0 else 1)) := by
  refine ⟨?_, ?_, ?_, ?_⟩
  · intro args finalSlides i hi t ht
    constructor
    · have hmem : i ∈ List.range args.slides.length := List.mem_range.mpr hi
      obtain ⟨l1, l2, hdec⟩ := flatMap_decomp
        (fun i => fillForContentSlide ((args.slides[i]?).getD {})
          ((finalSlides[1 + i]?).bind Page.pageElements)) hmem
      refine ⟨(match (getTitleAndBodyPlaceholders
            ((finalSlides[0]?).bind Page.pageElements)).title with
          | some t0 => [Request.deleteText t0.objectId,
              Request.insertText t0.objectId args.title 0]
          | none => ([] : List Request)) ++ l1, l2, ?_⟩
      unfold fillBatch
      rw [hdec]
      have hfp : fillForContentSlide ((args.slides[i]?).getD {})
            ((finalSlides[1 + i]?).bind Page.pageElements)
          = [Request.deleteText t.objectId,
              Request.insertText t.objectId (contentTitleText ((args.slides[i]?).getD {})) 0]
            ++ bodyFillPart ((args.slides[i]?).getD {})
                ((finalSlides[1 + i]?).bind Page.pageElements) := by
        unfold fillForContentSlide titleFillPart
        rw [ht]
      rw [hfp]
      simp [List.append_assoc]
    · cases hb : (getTitleAndBodyPlaceholders
          ((finalSlides[1 + i]?).bind Page.pageElements)).body with
      | none =>
        refine Or.inr ⟨?_, Or.inl rfl⟩
        simp [bodyFillPart, hb]
      | some b =>
        by_cases he : buildSlideBodyText ((args.slides[i]?).getD {}) = ""
        · refine Or.inr ⟨?_, Or.inr he⟩
          simp [bodyFillPart, hb, he]
        · refine Or.inl ⟨b, rfl, he, ?_⟩
          simp [bodyFillPart, hb, he]
  · intro args env oid hmem
    cases hpid : truthy env.presentationId with
    | none => simp [createBlank, hpid, BlankResult.requests] at hmem
    | some pid =>
      simp only [createBlank, hpid, BlankResult.requests] at hmem
      rcases List.mem_append.mp hmem with h | h
      · exact blankFirst_no_deleteText h
      · obtain ⟨i, -, hmem2⟩ := List.mem_flatMap.mp h
        exact blankSlideRequests_no_deleteText hmem2
  · intro args env pid i hpid h1 hi
    have hrange : i ∈ List.range' 1 (args.slides.length - 1) := by
      rw [List.mem_range'_1]
      omega
    constructor
    · intro hne
      simp only [createBlank, hpid, BlankResult.requests]
      rw [List.mem_append]
      right
      rw [List.mem_flatMap]
      refine ⟨i, hrange, ?_⟩
      unfold blankSlideRequests
      simp [hne]
    · intro hne
      simp only [createBlank, hpid, BlankResult.requests]
      rw [List.mem_append]
      right
      rw [List.mem_flatMap]
      refine ⟨i, hrange, ?_⟩
      unfold blankSlideRequests
      simp [hne]
  · intro args env pid i hpid h1 hi hta htb
    have hrange : i ∈ List.range' 1 (args.slides.length - 1) := by
      rw [List.mem_range'_1]
      omega
    simp only [createBlank, hpid, BlankResult.requests]
    constructor
    · rw [List.countP_append,
        countP_blankFirst_zero (fun x hx => (hta x hx).1) (fun x hx => (htb x hx).1),
        countP_flatMap,
        sum_map_eq_single (List.range' 1 (args.slides.length - 1))
          (fun j => ((blankSlideRequests ((args.slides[j]?).getD {}) j).countP
            (isInsertTargeting ("title_" ++ toString (i + 1))))) i hrange
          (List.nodup_range' 1 (args.slides.length - 1))
          (fun j _ hj => by simp [countP_blankSlideRequests_title, hj])]
      simp only [countP_blankSlideRequests_title]
      by_cases ht : contentTitleText ((args.slides[i]?).getD {}) = "" <;> simp [ht]
    · rw [List.countP_append,
        countP_blankFirst_zero (fun x hx => (hta x hx).2) (fun x hx => (htb x hx).2),
        countP_flatMap,
        sum_map_eq_single (List.range' 1 (args.slides.length - 1))
          (fun j => ((blankSlideRequests ((args.slides[j]?).getD {}) j).countP
            (isInsertTargeting ("body_" ++ toString (i + 1))))) i hrange
          (List.nodup_range' 1 (args.slides.length - 1))
          (fun j _ hj => by simp [countP_blankSlideRequests_body, hj])]
      simp only [countP_blankSlideRequests_body]
      by_cases hb : buildSlideBodyText ((args.slides[i]?).getD {}) = "" <;> simp [hb]

/-- Claim C8 (witness): in template mode, content page 1 with resolved
title `"tt"`, resolved body `"bb"` and slide content `title = "T1"`,
`body = "B1"` contributes the contiguous block `deleteText tt; insertText
tt "T1"; deleteText bb; insertText bb "B1"` to the fill batch; in blank
mode (deck title `"U"`, slide 1 title `"V"`, empty body) no delete-text is
emitted, the title box `"title_2"` receives the insert-text `"V"`, exactly
one insert in the whole batch targets `"title_2"`, and none targets
`"body_2"`. -/
theorem claim_C8_witness :
    (∃ l1 l2,
      fillBatch ⟨"Deck", [{ title := some "T1", body := some "B1" }], none⟩
          [{ objectId := some "s0",
              pageElements := some
                [{ objectId := some "t0",
                   shape := some { placeholder := some { type := some "TITLE" } } }] },
           { objectId := some "s1",
              pageElements := some
                [{ objectId := some "tt",
                   shape := some { placeholder := some { type := some "TITLE" } } },
                 { objectId := some "bb",
                   shape := some { placeholder := some { type := some "BODY" } } }] },
           { objectId := some "s2" }]
        = l1 ++ [Request.deleteText "tt", Request.insertText "tt" "T1" 0,
            Request.deleteText "bb", Request.insertText "bb" "B1" 0] ++ l2)
    ∧ Request.deleteText "title_2"
        ∉ (createBlank ⟨"U", [{}, { title := some "V" }], none⟩
            ⟨some "q", some []⟩).requests
    ∧ Request.insertText "title_2" "V" 0
        ∈ (createBlank ⟨"U", [{}, { title := some "V" }], none⟩
            ⟨some "q", some []⟩).requests
    ∧ (createBlank ⟨"U", [{}, { title := some "V" }], none⟩
        ⟨some "q", some []⟩).requests.countP (isInsertTargeting "title_2") = 1
    ∧ (createBlank ⟨"U", [{}, { title := some "V" }], none⟩
        ⟨some "q", some []⟩).requests.countP (isInsertTargeting "body_2") = 0 := by
  refine ⟨?_, ?_, ?_, ?_, ?_⟩
  · obtain ⟨⟨l1, l2, hdec⟩, -⟩ := claim_C8_amended.1
      ⟨"Deck", [{ title := some "T1", body := some "B1" }], none⟩
      [{ objectId := some "s0",
          pageElements := some
            [{ objectId := some "t0",
               shape := some { placeholder := some { type := some "TITLE" } } }] },
       { objectId := some "s1",
          pageElements := some
            [{ objectId := some "tt",
               shape := some { placeholder := some { type := some "TITLE" } } },
             { objectId := some "bb",
               shape := some { placeholder := some { type := some "BODY" } } }] },
       { objectId := some "s2" }] 0 (by decide) ⟨"tt", "TITLE"⟩ rfl
    exact ⟨l1, l2, hdec⟩
  · exact claim_C8_amended.2.1 ⟨"U", [{}, { title := some "V" }], none⟩ ⟨some "q", some []⟩
      "title_2"
  · exact (claim_C8_amended.2.2.1 ⟨"U", [{}, { title := some "V" }], none⟩ ⟨some "q", some []⟩
      "q" 1 (by decide) (by decide) (by decide)).1 (by decide)
  · exact (claim_C8_amended.2.2.2 ⟨"U", [{}, { title := some "V" }], none⟩ ⟨some "q", some []⟩
      "q" 1 (by decide) (by decide) (by decide)
      (fun x hx => Option.noConfusion (show (none : Option String) = some x from hx))
      (fun x hx => Option.noConfusion (show (none : Option String) = some x from hx))).1
  · exact (claim_C8_amended.2.2.2 ⟨"U", [{}, { title := some "V" }], none⟩ ⟨some "q", some []⟩
      "q" 1 (by decide) (by decide) (by decide)
      (fun x hx => Option.noConfusion (show (none : Option String) = some x from hx))
      (fun x hx => Option.noConfusion (show (none : Option String) = some x from hx))).2

end GSlides
